import Mathlib

/-!
Shallow embedding of the NHANES residual-inflammatory-risk cohort pipeline,
from the two processing scripts `src/scripts/02_build_cohort.py` (prefixed
`bc_` here) and `src/scripts/02_process_data.py` (prefixed `pr_` here).

Modelling conventions:
* A data-frame cell is `Option ℚ` (`none` = NaN).
* A column that may be absent from a frame is `Option (Option ℚ)` for one
  record's cell: outer `none` = the column does not exist in the frame.
* pandas comparison semantics: `NaN >= c`, `NaN == c` are `False`.
* Strings model the Python `str` values of drug-name and class-code cells.
-/

namespace Nhanes

/-- pandas `series >= c` on one cell: NaN compares `False`. -/
def oge (x : Option ℚ) (c : ℚ) : Bool :=
  match x with
  | none => false
  | some v => decide (c ≤ v)

/-- pandas `series == c` on one cell: NaN compares `False`. -/
def oeq (x : Option ℚ) (c : ℚ) : Bool :=
  match x with
  | none => false
  | some v => decide (v = c)

/-- Python `str.lower` on one ASCII character. -/
def lowerChar (c : Char) : Char :=
  if 'A' ≤ c ∧ c ≤ 'Z' then Char.ofNat (c.toNat + 32) else c

/-- Python `str.lower` (ASCII range, which covers every drug name involved). -/
def lowerStr (s : String) : String := ⟨s.data.map lowerChar⟩

/-- `pat` is an initial segment of `s` (character lists). -/
def isPrefOf : List Char → List Char → Bool
  | [], _ => true
  | _ :: _, [] => false
  | a :: as, b :: bs => a == b && isPrefOf as bs

/-- `pat` occurs contiguously inside the second list (Python `pat in s`). -/
def containsSeq (pat : List Char) : List Char → Bool
  | [] => isPrefOf pat []
  | b :: bs => isPrefOf pat (b :: bs) || containsSeq pat bs

/-- Python `pat in s` on strings. -/
def strContains (s pat : String) : Bool := containsSeq pat.data s.data

/-- `pat` is a final segment of `s`. -/
def isSuffOf (pat s : List Char) : Bool := isPrefOf pat.reverse s.reverse

/-! ### Statin constant tables (the two scripts carry different lists) -/

/-- `STATIN_PATTERNS` (02_build_cohort.py lines 35-48): generic names plus four
combination brand names, used as a regex alternation of literal strings. -/
def STATIN_PATTERNS : List String :=
  ["atorvastatin", "fluvastatin", "lovastatin", "pitavastatin", "pravastatin",
   "rosuvastatin", "simvastatin", "vytorin", "advicor", "caduet", "liptruzet"]

/-- `STATIN_CLASS_CODES` (02_build_cohort.py line 51). Declared in the script
but never consulted by its `identify_statin_users`. -/
def STATIN_CLASS_CODES : List String := ["CV350", "CV351", "CV352", "CV359"]

/-- `STATIN_NAMES` (02_process_data.py lines 33-59): generics, combinations and
brand names. -/
def STATIN_NAMES : List String :=
  ["atorvastatin", "simvastatin", "rosuvastatin", "pravastatin", "lovastatin",
   "fluvastatin", "pitavastatin",
   "atorvastatin/amlodipine", "simvastatin/ezetimibe", "simvastatin/niacin",
   "atorvastatin/ezetimibe", "rosuvastatin/ezetimibe", "lovastatin/niacin",
   "lipitor", "zocor", "crestor", "pravachol", "mevacor", "lescol", "livalo",
   "vytorin", "caduet", "advicor"]

/-- `STATIN_THERAPEUTIC_CLASSES` (02_process_data.py lines 63-65). -/
def STATIN_THERAPEUTIC_CLASSES : List String := ["358"]

/-- One row of an RXQ_RX prescription table: participant id `SEQN`, the
drug-name cell (`RXDDRUG`, after Python `str()`), and the therapeutic-class
cells (`RXDDCI1A` … `RXDDCI2C`) present on that row. -/
structure RxRow where
  seqn : Nat
  drug : String
  classCodes : List String
deriving DecidableEq

/-! ### Statin classifier, 02_build_cohort.py -/

/-- One row is a statin row when the lower-cased drug name contains any
`STATIN_PATTERNS` entry (`str.contains` on the regex alternation of the literal
names, 02_build_cohort.py lines 95-101). Class codes are never consulted. -/
def bc_is_statin_row (drug : String) : Bool :=
  STATIN_PATTERNS.any (fun p => strContains (lowerStr drug) p)

/-- `identify_statin_users` (02_build_cohort.py lines 71-106) as the partial map
`rx_df.groupby('SEQN')['is_statin'].any()`: defined exactly on the SEQNs that
appear in the table, `true` iff any of that participant's rows is a statin row.
An empty table yields the empty series. -/
def bc_identify_statin_users (rx : List RxRow) (s : Nat) : Option Bool :=
  if rx.any (fun r => r.seqn == s) then
    some (rx.any (fun r => r.seqn == s && bc_is_statin_row r.drug))
  else none

/-- `process_cycle` statin step (02_build_cohort.py lines 219-228):
`df['statin_use'] = df['SEQN'].map(statin_users).fillna(0).astype(int)`, and
`statin_use = 0` outright when no RXQ_RX file is found (`rxFile = none`). -/
def bc_statin_use (rxFile : Option (List RxRow)) (s : Nat) : ℚ :=
  match rxFile with
  | none => 0
  | some rx =>
    match bc_identify_statin_users rx s with
    | some true => 1
    | some false => 0
    | none => 0

/-! ### Statin classifier, 02_process_data.py -/

/-- Method-1 match (02_process_data.py lines 100-107): lower-cased drug name
contains some `STATIN_NAMES` entry. -/
def pr_name_match (drug : String) : Bool :=
  STATIN_NAMES.any (fun p => strContains (lowerStr drug) p)

/-- Method-2 match (02_process_data.py lines 109-116): some class-code cell of
the row equals (string equality) a member of `STATIN_THERAPEUTIC_CLASSES`. -/
def pr_class_match (codes : List String) : Bool :=
  codes.any (fun c => STATIN_THERAPEUTIC_CLASSES.contains c)

/-- The `statin_users` set of 02_process_data.py lines 98-116: a method-1 pass
over all rows followed by a method-2 pass, collecting SEQNs. -/
def pr_statin_user_seqns (rx : List RxRow) : List Nat :=
  (rx.filter (fun r => pr_name_match r.drug)).map (fun r => r.seqn) ++
  (rx.filter (fun r => pr_class_match r.classCodes)).map (fun r => r.seqn)

/-- `rxq_df['SEQN'].unique()`: first-occurrence de-duplication. -/
def uniqueKeys (seen : List Nat) : List Nat → List Nat
  | [] => []
  | a :: rest =>
    if seen.contains a then uniqueKeys seen rest
    else a :: uniqueKeys (a :: seen) rest

/-- `identify_statin_users` (02_process_data.py lines 87-126): one output row
per unique SEQN of the table, flag = membership in the `statin_users` set. -/
def pr_identify_statin_users (rx : List RxRow) : List (Nat × Bool) :=
  (uniqueKeys [] (rx.map (fun r => r.seqn))).map
    (fun s => (s, (pr_statin_user_seqns rx).contains s))

/-- A left-merge probe on SEQN into a keyed table: first matching row's flag. -/
def lookupFlag (tbl : List (Nat × Bool)) (s : Nat) : Option Bool :=
  (tbl.find? (fun p => p.1 == s)).map (fun p => p.2)

/-- `process_cycle` statin step (02_process_data.py lines 288-299).
`rxFile = none`: no RXQ_RX file found, the column is set to the constant 0.
`rxFile = some []`: the file loads empty, `identify_statin_users` is skipped and
the column is never created for the cycle (NaN after concatenation).
Otherwise: left merge of the classifier output then `fillna(0)`. -/
def pr_statin_user (rxFile : Option (List RxRow)) (s : Nat) : Option ℚ :=
  match rxFile with
  | none => some 0
  | some [] => none
  | some rx =>
    match lookupFlag (pr_identify_statin_users rx) s with
    | some true => some 1
    | some false => some 0
    | none => some 0

/-- `create_rir_cohort` statin step (02_process_data.py lines 471-472):
`df = df[df['statin_user'].notna()]` — a row survives iff the cell is non-NaN. -/
def pr_statin_filter_keep (v : Option ℚ) : Bool := v.isSome

/-! ### LDL-C derivation -/

/-- `compute_ldl_friedewald` (02_build_cohort.py lines 109-117):
`ldl = tc - hdl - tg/5`; `ldl[tg >= 400] = nan`; `ldl[ldl < 0] = nan`. -/
def compute_ldl_friedewald (tchol hdl trigly : Option ℚ) : Option ℚ :=
  match tchol, hdl, trigly with
  | some t, some h, some g =>
    if 400 ≤ g then none
    else if t - h - g / 5 < 0 then none
    else some (t - h - g / 5)
  | _, _, _ => none

/-- `calculate_ldl` (02_process_data.py lines 129-146): Friedewald, kept only
where `tg < 400`, then `fillna(direct_ldl)` when the fallback argument is
passed (`direct_ldl`'s outer `none` = parameter not passed, the scripts'
default). No negative-value rejection. -/
def calculate_ldl (tc hdl tg : Option ℚ) (direct_ldl : Option (Option ℚ)) :
    Option ℚ :=
  let ldl_calc : Option ℚ :=
    match tc, hdl, tg with
    | some t, some h, some g => if g < 400 then some (t - h - g / 5) else none
    | _, _, _ => none
  match ldl_calc, direct_ldl with
  | some v, _ => some v
  | none, some d => d
  | none, none => none

/-! ### hs-CRP harmonization -/

/-- 02_build_cohort.py `process_cycle` lines 237-239 composed with
`build_analytic_cohort` line 274: the canonical hs-CRP cell for one record of a
per-cycle table, given whether the cycle table carries the `LBXCRP` /
`LBXHSCRP` columns. The ×10 mg/dL→mg/L rescale runs per cycle, before
concatenation, exactly when the cycle has only the older column. -/
def bc_hscrp (hasLBXCRP hasLBXHSCRP : Bool) (lbxcrp lbxhscrp : Option ℚ) :
    Option ℚ :=
  if hasLBXCRP && !hasLBXHSCRP then lbxcrp.map (fun v => v * 10) else lbxhscrp

/-- 02_process_data.py `harmonize_variables` lines 316-318, run on the already
concatenated table: `hscrp = LBXHSCRP.fillna(LBXCRP)` — no unit rescaling. -/
def pr_hscrp (lbxhscrp lbxcrp : Option ℚ) : Option ℚ :=
  match lbxhscrp with
  | some v => some v
  | none => lbxcrp

/-! ### Race/ethnicity harmonization -/

/-- 02_build_cohort.py `build_analytic_cohort` lines 267-271, run on the
concatenated table: a column-level choice — `race_eth = RIDRETH3` for every
record when that column exists anywhere in the combined frame, else
`RIDRETH1`. -/
def bc_race_eth (hasRIDRETH3 : Bool) (ridreth3 ridreth1 : Option ℚ) :
    Option ℚ :=
  if hasRIDRETH3 then ridreth3 else ridreth1

/-- 02_process_data.py `harmonize_variables` line 351:
`race_eth = df.get('RIDRETH1', nan)` — the `RIDRETH3` column kept by
`process_cycle` is never consulted. -/
def pr_race_eth (_ridreth3 ridreth1 : Option ℚ) : Option ℚ := ridreth1

/-! ### Diabetes derivation -/

/-- `define_diabetes` (02_build_cohort.py lines 134-141): only HbA1c, fasting
glucose and `DIQ010` are consulted (the medication answers `DIQ050`/`DIQ070`
are not), and `.astype(float)` of the boolean OR always yields a definite
0/1. -/
def bc_define_diabetes (hba1c glucose told : Option ℚ) : ℚ :=
  if oge hba1c 6.5 || oge glucose 126 || oeq told 1 then 1 else 0

/-- 02_process_data.py `harmonize_variables` lines 388-395: the five-signal OR,
then the result is overwritten with NaN exactly where `hba1c`,
`fasting_glucose` and `DIQ010` are all NaN — `DIQ050`/`DIQ070` are not part of
that mask. -/
def pr_diabetes (hba1c glu diq010 diq050 diq070 : Option ℚ) : Option ℚ :=
  let v : ℚ :=
    if oge hba1c 6.5 || oge glu 126 || oeq diq010 1 || oeq diq050 1 ||
       oeq diq070 1
    then 1 else 0
  if hba1c.isNone && glu.isNone && diq010.isNone then none else some v

/-! ### CVD-history derivation -/

/-- `df.get(col, pd.Series([2]*len(df)))`: the row's cell when the column
exists in the frame, else the default value 2 ("no"). -/
def mcqGet (c : Option (Option ℚ)) : Option ℚ :=
  match c with
  | none => some 2
  | some v => v

/-- `define_cvd_history` (02_build_cohort.py lines 157-166): OR of the five
self-reported conditions, each read with default 2, then `.astype(float)`. -/
def bc_define_cvd_history (chd mi strk ang chf : Option (Option ℚ)) : ℚ :=
  if oeq (mcqGet chd) 1 || oeq (mcqGet mi) 1 || oeq (mcqGet strk) 1 ||
     oeq (mcqGet ang) 1 || oeq (mcqGet chf) 1
  then 1 else 0

/-- A CVD-history source that is either absent as a column or NaN for the
record. -/
def noSignal (x : Option (Option ℚ)) : Prop := x = none ∨ x = some none

/-! ### File resolver -/

/-- glob `*pat*`: the name contains `pat`, case-sensitively (pathlib on
POSIX). -/
def globStar (pat name : String) : Bool := containsSeq pat.data name.data

/-- glob `*pat*ext`: the name ends with `ext` and `pat` occurs in the part
before that suffix. -/
def globStarExt (pat ext name : String) : Bool :=
  isSuffOf ext.data name.data &&
  containsSeq pat.data (name.data.take (name.data.length - ext.data.length))

/-- `find_file` (02_build_cohort.py lines 63-68): first entry of the directory
listing matching glob `*pattern*`; `None` when nothing matches. -/
def bc_find_file (dir : List String) (pat : String) : Option String :=
  (dir.filter (fun n => globStar pat n)).head?

/-- `find_file` (02_process_data.py lines 78-84): tries `*pattern*.XPT`, then
`*pattern*.xpt`; `None` when nothing matches. -/
def pr_find_file (dir : List String) (pat : String) : Option String :=
  match (dir.filter (fun n => globStarExt pat ".XPT" n)).head? with
  | some f => some f
  | none => (dir.filter (fun n => globStarExt pat ".xpt" n)).head?

/-! ### Per-cycle merger -/

/-- A participant row: SEQN key and the accumulated value cells. -/
abbrev DataRow := Nat × List (Option ℚ)

/-- A loaded component table: the count of its value columns and its rows. -/
structure CompTable where
  width : Nat
  rows : List DataRow

/-- The block of output rows a single left row contributes to
`merge(..., on='SEQN', how='left')`: all matching right rows, or one row padded
with NaN across the component's columns when there is no match. -/
def joinBlock (l : DataRow) (right : List DataRow) (w : Nat) : List DataRow :=
  match right.filter (fun r => r.1 == l.1) with
  | [] => [(l.1, l.2 ++ List.replicate w none)]
  | ms => ms.map (fun r => (l.1, l.2 ++ r.2))

/-- pandas `left.merge(right, on='SEQN', how='left')`: concatenation of the
blocks contributed by the left rows, in left order. -/
def leftJoin (left : List DataRow) (right : List DataRow) (w : Nat) :
    List DataRow :=
  match left with
  | [] => []
  | l :: ls => joinBlock l right w ++ leftJoin ls right w

/-- The merging skeleton of `process_cycle` (02_build_cohort.py lines 182-216,
02_process_data.py lines 161-283): demographics required — empty result when
absent; each available component is left-joined in order; a missing optional
component is skipped. -/
def mergeCycle (demo : Option (List DataRow)) (comps : List (Option CompTable)) :
    List DataRow :=
  match demo with
  | none => []
  | some d =>
    comps.foldl (fun acc c =>
      match c with
      | none => acc
      | some t => leftJoin acc t.rows t.width) d

/-- All rows of a table carrying the given SEQN. -/
def rowsFor (tbl : List DataRow) (k : Nat) : List DataRow :=
  tbl.filter (fun r => r.1 == k)

/-- Total value-column count of the components actually present. -/
def presentWidth : List (Option CompTable) → Nat
  | [] => 0
  | none :: cs => presentWidth cs
  | some t :: cs => t.width + presentWidth cs

/-- The component (when present) has no row for the given SEQN. -/
def compAbsentKey (c : Option CompTable) (k : Nat) : Bool :=
  match c with
  | none => true
  | some t => t.rows.all (fun r => !(r.1 == k))

/-! ## Supporting lemmas -/

theorem bool_eq_of_iff {a b : Bool} (h : a = true ↔ b = true) : a = b := by
  cases a <;> cases b <;> simp_all

theorem mem_uniqueKeys (x : Nat) (l : List Nat) : ∀ seen : List Nat,
    x ∈ uniqueKeys seen l ↔ (x ∈ l ∧ x ∉ seen) := by
  induction l with
  | nil => intro seen; simp [uniqueKeys]
  | cons a rest ih =>
    intro seen
    rw [uniqueKeys]
    by_cases h : seen.contains a
    · have ha : a ∈ seen := by simpa using h
      rw [if_pos h, ih seen]
      simp only [List.mem_cons]
      constructor
      · rintro ⟨h1, h2⟩
        exact ⟨Or.inr h1, h2⟩
      · rintro ⟨rfl | h1, h2⟩
        · exact absurd ha h2
        · exact ⟨h1, h2⟩
    · have ha : a ∉ seen := by simpa using h
      rw [if_neg h]
      simp only [List.mem_cons, ih (a :: seen), List.mem_cons]
      constructor
      · rintro (rfl | ⟨h1, h2⟩)
        · exact ⟨Or.inl rfl, ha⟩
        · exact ⟨Or.inr h1, fun hx => h2 (Or.inr hx)⟩
      · rintro ⟨h1, h2⟩
        by_cases hxa : x = a
        · exact Or.inl hxa
        · rcases h1 with rfl | h1
          · exact absurd rfl hxa
          · exact Or.inr ⟨h1, fun hx => hx.elim hxa h2⟩

theorem lookupFlag_map (M : List Nat) (g : Nat → Bool) (x : Nat) :
    lookupFlag (M.map (fun s => (s, g s))) x =
      if x ∈ M then some (g x) else none := by
  induction M with
  | nil => simp [lookupFlag]
  | cons a rest ih =>
    by_cases h : a = x
    · subst h
      unfold lookupFlag
      rw [List.map_cons, List.find?_cons_of_pos _ (by simp)]
      simp
    · unfold lookupFlag at ih ⊢
      rw [List.map_cons, List.find?_cons_of_neg _ (by simp [h]), ih]
      by_cases hx : x ∈ rest
      · rw [if_pos hx, if_pos (List.mem_cons_of_mem _ hx)]
      · rw [if_neg hx, if_neg ?_]
        intro hmem
        rcases List.mem_cons.mp hmem with rfl | hmem
        · exact h rfl
        · exact hx hmem

theorem mem_pr_statin_user_seqns (rx : List RxRow) (s : Nat) :
    (pr_statin_user_seqns rx).contains s =
      rx.any (fun r =>
        r.seqn == s && (pr_name_match r.drug || pr_class_match r.classCodes)) := by
  apply bool_eq_of_iff
  rw [List.contains_eq_any_beq]
  simp only [pr_statin_user_seqns, List.any_eq_true, List.mem_append,
    List.mem_map, List.mem_filter, Bool.and_eq_true, Bool.or_eq_true,
    beq_iff_eq]
  constructor
  · rintro ⟨y, ⟨r, ⟨hr, hm⟩, rfl⟩ | ⟨r, ⟨hr, hm⟩, rfl⟩, rfl⟩
    · exact ⟨r, hr, rfl, Or.inl hm⟩
    · exact ⟨r, hr, rfl, Or.inr hm⟩
  · rintro ⟨r, hr, rfl, hm | hm⟩
    · exact ⟨r.seqn, Or.inl ⟨r, ⟨hr, hm⟩, rfl⟩, rfl⟩
    · exact ⟨r.seqn, Or.inr ⟨r, ⟨hr, hm⟩, rfl⟩, rfl⟩

theorem head_filter_eq_find {α : Type} (p : α → Bool) (l : List α) :
    (l.filter p).head? = l.find? p := by
  induction l with
  | nil => rfl
  | cons a t ih =>
    by_cases h : p a
    · simp [List.filter_cons, List.find?_cons, h]
    · simp [List.filter_cons, List.find?_cons, h, ih]

theorem keys_joinBlock (l : DataRow) (right : List DataRow) (w : Nat) :
    ∀ x ∈ joinBlock l right w, x.1 = l.1 := by
  intro x hx
  unfold joinBlock at hx
  cases hF : right.filter (fun r => r.1 == l.1) with
  | nil =>
    rw [hF] at hx
    simp only [List.mem_singleton] at hx
    rw [hx]
  | cons m ms =>
    rw [hF] at hx
    simp only [List.mem_map] at hx
    obtain ⟨r, _, rfl⟩ := hx
    rfl

theorem joinBlock_ne_nil (l : DataRow) (right : List DataRow) (w : Nat) :
    joinBlock l right w ≠ [] := by
  unfold joinBlock
  cases hF : right.filter (fun r => r.1 == l.1) <;> simp

theorem joinBlock_no_match (l : DataRow) (right : List DataRow) (w : Nat)
    (hr : right.all (fun r => !(r.1 == l.1)) = true) :
    joinBlock l right w = [(l.1, l.2 ++ List.replicate w none)] := by
  unfold joinBlock
  have hF : right.filter (fun r => r.1 == l.1) = [] := by
    rw [List.filter_eq_nil_iff]
    intro r hrr
    have := (List.all_eq_true.mp hr) r hrr
    simpa using this
  rw [hF]

theorem rowsFor_append (t u : List DataRow) (k : Nat) :
    rowsFor (t ++ u) k = rowsFor t k ++ rowsFor u k :=
  List.filter_append _ _

theorem rowsFor_cons (a : DataRow) (ls : List DataRow) (k : Nat) :
    rowsFor (a :: ls) k = if a.1 = k then a :: rowsFor ls k else rowsFor ls k := by
  rw [rowsFor, List.filter_cons]
  by_cases h : a.1 = k <;> simp [h, rowsFor]

theorem rowsFor_joinBlock_ne (l : DataRow) (right : List DataRow) (w k : Nat)
    (h : l.1 ≠ k) : rowsFor (joinBlock l right w) k = [] := by
  rw [rowsFor, List.filter_eq_nil_iff]
  intro x hx
  have hk := keys_joinBlock l right w x hx
  simp [hk, h]

theorem rowsFor_joinBlock_eq (l : DataRow) (right : List DataRow) (w k : Nat)
    (hk : l.1 = k) (hr : right.all (fun r => !(r.1 == k)) = true) :
    rowsFor (joinBlock l right w) k = [(l.1, l.2 ++ List.replicate w none)] := by
  subst hk
  rw [joinBlock_no_match l right w hr]
  simp [rowsFor]

theorem rowsFor_leftJoin_nil (left right : List DataRow) (w k : Nat)
    (h : rowsFor left k = []) : rowsFor (leftJoin left right w) k = [] := by
  induction left with
  | nil => rfl
  | cons a ls ih =>
    rw [leftJoin, rowsFor_append]
    rw [rowsFor_cons] at h
    by_cases ha : a.1 = k
    · rw [if_pos ha] at h
      exact absurd h (List.cons_ne_nil _ _)
    · rw [if_neg ha] at h
      rw [rowsFor_joinBlock_ne a right w k ha, ih h]
      rfl

theorem rowsFor_leftJoin_absent (left right : List DataRow) (w k : Nat)
    (v : List (Option ℚ)) (hr : right.all (fun r => !(r.1 == k)) = true)
    (h : rowsFor left k = [(k, v)]) :
    rowsFor (leftJoin left right w) k = [(k, v ++ List.replicate w none)] := by
  induction left with
  | nil => simp [rowsFor] at h
  | cons a ls ih =>
    rw [leftJoin, rowsFor_append]
    rw [rowsFor_cons] at h
    by_cases ha : a.1 = k
    · rw [if_pos ha] at h
      have hav : a = (k, v) := (List.cons_eq_cons.mp h).1
      have htl : rowsFor ls k = [] := (List.cons_eq_cons.mp h).2
      rw [rowsFor_joinBlock_eq a right w k ha hr,
        rowsFor_leftJoin_nil ls right w k htl, hav]
      simp
    · rw [if_neg ha] at h
      rw [rowsFor_joinBlock_ne a right w k ha]
      simpa using ih h

theorem length_rowsFor_leftJoin (left right : List DataRow) (w k : Nat) :
    (rowsFor left k).length ≤ (rowsFor (leftJoin left right w) k).length := by
  induction left with
  | nil => simp [rowsFor, leftJoin]
  | cons a ls ih =>
    rw [leftJoin, rowsFor_append, List.length_append, rowsFor_cons]
    by_cases ha : a.1 = k
    · rw [if_pos ha]
      have hblock : 1 ≤ (rowsFor (joinBlock a right w) k).length := by
        have hall : rowsFor (joinBlock a right w) k = joinBlock a right w := by
          rw [rowsFor, List.filter_eq_self]
          intro x hx
          simp [keys_joinBlock a right w x hx, ha]
        rw [hall]
        cases hJ : joinBlock a right w with
        | nil => exact absurd hJ (joinBlock_ne_nil a right w)
        | cons b bs => simp
      simp only [List.length_cons]
      omega
    · rw [if_neg ha, rowsFor_joinBlock_ne a right w k ha]
      simpa using ih

theorem mergeCycle_cons_none (demo : List DataRow) (cs : List (Option CompTable)) :
    mergeCycle (some demo) (none :: cs) = mergeCycle (some demo) cs := rfl

theorem mergeCycle_cons_some (demo : List DataRow) (t : CompTable)
    (cs : List (Option CompTable)) :
    mergeCycle (some demo) (some t :: cs) =
      mergeCycle (some (leftJoin demo t.rows t.width)) cs := rfl

theorem rowsFor_mergeCycle_absent (comps : List (Option CompTable)) :
    ∀ (demo : List DataRow) (k : Nat) (v : List (Option ℚ)),
      rowsFor demo k = [(k, v)] →
      comps.all (fun c => compAbsentKey c k) = true →
      rowsFor (mergeCycle (some demo) comps) k =
        [(k, v ++ List.replicate (presentWidth comps) none)] := by
  induction comps with
  | nil =>
    intro demo k v h _
    have hm : mergeCycle (some demo) [] = demo := rfl
    rw [hm, presentWidth]
    simpa using h
  | cons c cs ih =>
    intro demo k v h hall
    rw [List.all_cons, Bool.and_eq_true] at hall
    cases c with
    | none =>
      rw [mergeCycle_cons_none]
      have hp : presentWidth (none :: cs) = presentWidth cs := rfl
      rw [hp]
      exact ih demo k v h hall.2
    | some t =>
      rw [mergeCycle_cons_some]
      have hc : t.rows.all (fun r => !(r.1 == k)) = true := hall.1
      have hstep := rowsFor_leftJoin_absent demo t.rows t.width k v hc h
      have hrec := ih (leftJoin demo t.rows t.width) k
        (v ++ List.replicate t.width none) hstep hall.2
      rw [hrec, presentWidth, List.append_assoc, ← List.replicate_add]

theorem length_rowsFor_mergeCycle (comps : List (Option CompTable)) :
    ∀ (demo : List DataRow) (k : Nat),
      (rowsFor demo k).length ≤ (rowsFor (mergeCycle (some demo) comps) k).length := by
  induction comps with
  | nil => intro demo k; exact Nat.le_refl _
  | cons c cs ih =>
    intro demo k
    cases c with
    | none => exact ih demo k
    | some t =>
      rw [mergeCycle_cons_some]
      exact le_trans (length_rowsFor_leftJoin demo t.rows t.width k) (ih _ k)

/-! ## Claim theorems -/

/-- C1: for a record whose only inflammation-marker source is the older
variable `LBXCRP`, the cohort-builder's per-cycle step does produce
`10 × raw_old_value`, but the processing script's harmonizer (which coalesces
only after concatenation) produces the raw old value unchanged — the claimed
×10 rescaling is absent there. Shown at raw LBXCRP = 0.5 mg/dL. -/
theorem C1_crp_unit_rescale :
    bc_hscrp true false (some (1/2)) none = some 5 ∧
    pr_hscrp none (some (1/2)) = some (1/2) ∧
    pr_hscrp none (some (1/2)) ≠ some (10 * (1/2)) := by
  refine ⟨by norm_num [bc_hscrp], rfl, by norm_num [pr_hscrp]⟩

/-- C2 counterexample: a participant (SEQN 1) with no row in a non-empty
medication table gets the definite flag 0 from both scripts, and the
processing script's statin filter keeps the participant — contradicting the
claim that the status is left missing and the participant removed. -/
theorem C2_counterexample :
    pr_statin_user (some [⟨2, "lisinopril", []⟩]) 1 = some 0 ∧
    bc_statin_use (some [⟨2, "lisinopril", []⟩]) 1 = 0 ∧
    pr_statin_filter_keep (pr_statin_user (some [⟨2, "lisinopril", []⟩]) 1) = true := by
  refine ⟨by decide, by decide, by decide⟩

/-- C2 (amended): a participant absent from a non-empty medication table, or in
a cycle with no prescription file, is silently imputed to statin flag 0 in both
scripts and kept by the processing script's statin filter as a non-user; the
status stays missing (and the filter removes the participant) only when the
prescription file is present but loads empty. -/
theorem C2_statin_unknown_handling (rx : List RxRow) (s : Nat)
    (hne : rx ≠ []) (habs : ∀ r ∈ rx, r.seqn ≠ s) :
    bc_statin_use (some rx) s = 0 ∧
    pr_statin_user (some rx) s = some 0 ∧
    pr_statin_filter_keep (pr_statin_user (some rx) s) = true ∧
    bc_statin_use none s = 0 ∧
    pr_statin_user none s = some 0 ∧
    pr_statin_user (some []) s = none ∧
    pr_statin_filter_keep (pr_statin_user (some []) s) = false := by
  obtain ⟨a, ls, rfl⟩ := List.exists_cons_of_ne_nil hne
  have hany : (a :: ls).any (fun r => r.seqn == s) = false := by
    rw [List.any_eq_false]
    intro r hr
    simp [habs r hr]
  have hflag : lookupFlag (pr_identify_statin_users (a :: ls)) s = none := by
    unfold pr_identify_statin_users
    rw [lookupFlag_map]
    rw [if_neg]
    intro hmem
    obtain ⟨hmem1, _⟩ := (mem_uniqueKeys s _ []).mp hmem
    obtain ⟨r, hr, hrs⟩ := List.mem_map.mp hmem1
    exact habs r hr hrs
  have hid : bc_identify_statin_users (a :: ls) s = none := by
    unfold bc_identify_statin_users
    rw [if_neg (by simp [hany])]
  have hbc : bc_statin_use (some (a :: ls)) s = 0 := by
    show ((match bc_identify_statin_users (a :: ls) s with
      | some true => 1
      | some false => 0
      | none => 0 : ℚ)) = 0
    rw [hid]
  have hpr : pr_statin_user (some (a :: ls)) s = some 0 := by
    show (match lookupFlag (pr_identify_statin_users (a :: ls)) s with
      | some true => some (1 : ℚ)
      | some false => some 0
      | none => some 0) = some 0
    rw [hflag]
  exact ⟨hbc, hpr, by rw [hpr]; rfl, rfl, rfl, rfl, rfl⟩

/-- Witness for C2: the amended behavior at the concrete one-row table. -/
theorem C2_witness :
    bc_statin_use (some [⟨2, "lisinopril", []⟩]) 7 = 0 ∧
    pr_statin_user (some [⟨2, "lisinopril", []⟩]) 7 = some 0 := by
  have h := C2_statin_unknown_handling [⟨2, "lisinopril", []⟩] 7
    (by decide) (by decide)
  exact ⟨h.1, h.2.1⟩

/-- C3 counterexample: the processing script's LDL calculator returns the
negative value −10 (TC 100, HDL 90, TG 100) instead of setting it missing. -/
theorem C3_counterexample :
    calculate_ldl (some 100) (some 90) (some 100) none = some (-10) ∧
    ((-10 : ℚ) < 0) := by
  exact ⟨by norm_num [calculate_ldl], by norm_num⟩

/-- C3 (amended): both calculators compute TC − HDL − TG/5 for TG < 400 and
return missing for TG ≥ 400 (absent a direct-LDL fallback); the cohort-builder
additionally sets negative results missing, but the processing script's
calculator returns negative results unchanged. -/
theorem C3_ldl_friedewald (t h g : ℚ) (tc hdl : Option ℚ) :
    (g < 400 → 0 ≤ t - h - g / 5 →
      compute_ldl_friedewald (some t) (some h) (some g) = some (t - h - g / 5)) ∧
    (t - h - g / 5 < 0 →
      compute_ldl_friedewald (some t) (some h) (some g) = none) ∧
    (400 ≤ g → compute_ldl_friedewald tc hdl (some g) = none ∧
      calculate_ldl tc hdl (some g) none = none) ∧
    (g < 400 → calculate_ldl (some t) (some h) (some g) none = some (t - h - g / 5)) := by
  refine ⟨?_, ?_, ?_, ?_⟩
  · intro h1 h2
    show (if (400:ℚ) ≤ g then none
      else if t - h - g / 5 < 0 then none else some (t - h - g / 5)) =
      some (t - h - g / 5)
    rw [if_neg (by linarith), if_neg (by linarith)]
  · intro h1
    show (if (400:ℚ) ≤ g then none
      else if t - h - g / 5 < 0 then none else some (t - h - g / 5)) = none
    by_cases hg : (400:ℚ) ≤ g
    · rw [if_pos hg]
    · rw [if_neg hg, if_pos h1]
  · intro hg
    constructor
    · cases tc with
      | none => rfl
      | some t' =>
        cases hdl with
        | none => rfl
        | some h' =>
          show (if (400:ℚ) ≤ g then none
            else if t' - h' - g / 5 < 0 then none else some (t' - h' - g / 5)) = none
          rw [if_pos hg]
    · cases tc with
      | none => rfl
      | some t' =>
        cases hdl with
        | none => rfl
        | some h' =>
          show (match (if g < 400 then some (t' - h' - g / 5) else none),
              (none : Option (Option ℚ)) with
            | some v, _ => some v
            | none, some d => d
            | none, none => none) = none
          rw [if_neg (not_lt.mpr hg)]
  · intro h1
    show (match (if g < 400 then some (t - h - g / 5) else none),
        (none : Option (Option ℚ)) with
      | some v, _ => some v
      | none, some d => d
      | none, none => none) = some (t - h - g / 5)
    rw [if_pos h1]

/-- Witness for C3: the amended behavior at the spec's test vectors
(TC 200, HDL 50, TG 150 → 120; TG 450 → missing). -/
theorem C3_witness :
    compute_ldl_friedewald (some 200) (some 50) (some 150) = some 120 ∧
    compute_ldl_friedewald (some 200) (some 50) (some 450) = none ∧
    calculate_ldl (some 200) (some 50) (some 450) none = none ∧
    calculate_ldl (some 200) (some 50) (some 150) none = some 120 := by
  have h1 := (C3_ldl_friedewald 200 50 150 none none).1 (by norm_num) (by norm_num)
  have h3 := (C3_ldl_friedewald 200 50 450 (some 200) (some 50)).2.2.1 (by norm_num)
  have h4 := (C3_ldl_friedewald 200 50 150 none none).2.2.2 (by norm_num)
  refine ⟨?_, h3.1, h3.2, ?_⟩
  · rw [h1]; norm_num
  · rw [h4]; norm_num

/-- C4 counterexample: a participant whose single medication row carries the
statin therapeutic-class code "CV350" (a member of the cohort-builder's own
fixed class-code set) but a non-statin drug name is flagged 0 by the
cohort-builder's classifier — the class-code disjunct of the claim is absent
there. -/
theorem C4_counterexample :
    bc_identify_statin_users [⟨1, "ezetimibe 10mg", ["CV350"]⟩] 1 = some false ∧
    "CV350" ∈ STATIN_CLASS_CODES := by
  exact ⟨by decide, by decide⟩

/-- C4 (amended): for every participant appearing in the medication table, the
processing script's classifier flags 1 iff some row of that participant matches
by case-insensitive name substring OR exact class code; the cohort-builder's
classifier flags 1 iff some row matches by name substring only (its class-code
list is never consulted). In both, the spec's lisinopril/ATORVASTATIN
participant is flagged 1. -/
theorem C4_statin_classifier (rx : List RxRow) (s : Nat)
    (hs : s ∈ rx.map (fun r => r.seqn)) :
    lookupFlag (pr_identify_statin_users rx) s =
      some (rx.any (fun r =>
        r.seqn == s && (pr_name_match r.drug || pr_class_match r.classCodes))) ∧
    bc_identify_statin_users rx s =
      some (rx.any (fun r => r.seqn == s && bc_is_statin_row r.drug)) ∧
    lookupFlag (pr_identify_statin_users
      [⟨1, "lisinopril", []⟩, ⟨1, "ATORVASTATIN CALCIUM 10MG", []⟩]) 1 = some true ∧
    bc_identify_statin_users
      [⟨1, "lisinopril", []⟩, ⟨1, "ATORVASTATIN CALCIUM 10MG", []⟩] 1 = some true := by
  refine ⟨?_, ?_, by decide, by decide⟩
  · unfold pr_identify_statin_users
    rw [lookupFlag_map]
    rw [if_pos ((mem_uniqueKeys s _ []).mpr ⟨hs, by simp⟩)]
    rw [mem_pr_statin_user_seqns]
  · unfold bc_identify_statin_users
    rw [if_pos]
    obtain ⟨r, hr, hrs⟩ := List.mem_map.mp hs
    rw [List.any_eq_true]
    exact ⟨r, hr, by simp [hrs]⟩

/-- Witness for C4: the classifier characterizations at the spec's concrete
two-row medication table. -/
theorem C4_witness :
    lookupFlag (pr_identify_statin_users
      [⟨1, "lisinopril", []⟩, ⟨1, "ATORVASTATIN CALCIUM 10MG", []⟩]) 1 = some true ∧
    bc_identify_statin_users
      [⟨1, "lisinopril", []⟩, ⟨1, "ATORVASTATIN CALCIUM 10MG", []⟩] 1 = some true := by
  have h := C4_statin_classifier
    [⟨1, "lisinopril", []⟩, ⟨1, "ATORVASTATIN CALCIUM 10MG", []⟩] 1 (by decide)
  exact ⟨h.2.2.1, h.2.2.2⟩

/-- C5: race/ethnicity harmonization. In the cohort-builder (run on the
concatenated table) a record with the newer coding missing gets a missing
value — it is never backfilled from the populated older coding; in the
processing script a record with both codings populated gets the older coding
(6 is the newer value, 3 the older). Both contradict the claim. -/
theorem C5_race_eth :
    bc_race_eth true none (some 3) = none ∧
    pr_race_eth (some 6) (some 3) = some 3 ∧
    bc_race_eth true (some 6) (some 3) = some 6 := by
  exact ⟨rfl, rfl, rfl⟩

/-- C6: diabetes derivation. With HbA1c, glucose and DIQ010 all missing but the
insulin answer DIQ050 = 1 (an affirmative signal by the code's own test), the
processing script's flag is missing (its all-missing mask ignores
DIQ050/DIQ070) and the cohort-builder's flag is a definite 0 (it never reads
the medication answers and returns 0, not missing, when its sources are all
missing) — both contradict the claim's required value 1. -/
theorem C6_diabetes :
    pr_diabetes none none none (some 1) none = none ∧
    bc_define_diabetes none none none = 0 ∧
    oeq (some 1) 1 = true := by
  exact ⟨rfl, rfl, by decide⟩

/-- C7 counterexample: for directory listing ["crp_d.xpt"] and token "CRP",
a case-insensitive match exists, yet both resolvers return none — the token is
matched case-sensitively under the glob. -/
theorem C7_counterexample :
    bc_find_file ["crp_d.xpt"] "CRP" = none ∧
    pr_find_file ["crp_d.xpt"] "CRP" = none ∧
    strContains (lowerStr "crp_d.xpt") (lowerStr "CRP") = true := by
  exact ⟨by decide, by decide, by decide⟩

/-- C7 (amended): each resolver returns the first directory entry matching its
glob with the token taken case-sensitively — the cohort-builder's glob is
`*pattern*` with no extension filter, the processing script's tries
`*pattern*.XPT` then `*pattern*.xpt` — and both return none, without raising,
exactly when no entry matches. -/
theorem C7_find_file (dir : List String) (pat : String) :
    bc_find_file dir pat = dir.find? (fun n => globStar pat n) ∧
    (bc_find_file dir pat = none ↔ ∀ n ∈ dir, globStar pat n = false) ∧
    pr_find_file dir pat = ((dir.find? (fun n => globStarExt pat ".XPT" n)).orElse
      (fun _ => dir.find? (fun n => globStarExt pat ".xpt" n))) ∧
    (pr_find_file dir pat = none ↔
      ∀ n ∈ dir, globStarExt pat ".XPT" n = false ∧ globStarExt pat ".xpt" n = false) := by
  have h1 : bc_find_file dir pat = dir.find? (fun n => globStar pat n) :=
    head_filter_eq_find _ _
  have h3 : pr_find_file dir pat =
      ((dir.find? (fun n => globStarExt pat ".XPT" n)).orElse
        (fun _ => dir.find? (fun n => globStarExt pat ".xpt" n))) := by
    unfold pr_find_file
    rw [head_filter_eq_find, head_filter_eq_find]
    cases dir.find? (fun n => globStarExt pat ".XPT" n) <;> rfl
  refine ⟨h1, ?_, h3, ?_⟩
  · rw [h1, List.find?_eq_none]
    simp [Bool.not_eq_true]
  · rw [h3]
    cases hX : dir.find? (fun n => globStarExt pat ".XPT" n) with
    | some f =>
      have ho : (Option.orElse (some f)
          (fun _ => dir.find? (fun n => globStarExt pat ".xpt" n))) = some f := rfl
      rw [ho]
      constructor
      · intro hcontra
        exact absurd hcontra (by simp)
      · intro hall
        have hf := List.find?_some hX
        have hm := List.mem_of_find?_eq_some hX
        rw [(hall f hm).1] at hf
        exact absurd hf (by simp)
    | none =>
      have ho : (Option.orElse none
          (fun _ => dir.find? (fun n => globStarExt pat ".xpt" n))) =
          dir.find? (fun n => globStarExt pat ".xpt" n) := rfl
      rw [ho, List.find?_eq_none]
      have hXall := List.find?_eq_none.mp hX
      constructor
      · intro hall n hn
        constructor
        · simpa using hXall n hn
        · simpa using hall n hn
      · intro hall n hn
        simp [(hall n hn).2]

/-- Witness for C7: the resolver characterization at a concrete listing. -/
theorem C7_witness :
    bc_find_file ["BPX_D.xpt"] "BPX" = some "BPX_D.xpt" ∧
    pr_find_file ["BPX_D.xpt"] "BPX" = some "BPX_D.xpt" := by
  have h := C7_find_file ["BPX_D.xpt"] "BPX"
  exact ⟨h.1.trans (by decide), h.2.2.1.trans (by decide)⟩

/-- C8: the per-cycle merger returns the empty table when demographics is
missing; a participant with exactly one demographics row and no row in any
present component keeps exactly one row, padded with missing values across all
present components' columns; and no demographics row is ever dropped (the
row count for any SEQN never decreases). The merger is total — a missing
optional component is skipped, never an error. -/
theorem C8_per_cycle_merger (demo : List DataRow) (comps : List (Option CompTable))
    (k : Nat) (v : List (Option ℚ)) :
    mergeCycle none comps = [] ∧
    (rowsFor demo k = [(k, v)] → comps.all (fun c => compAbsentKey c k) = true →
      rowsFor (mergeCycle (some demo) comps) k =
        [(k, v ++ List.replicate (presentWidth comps) none)]) ∧
    (rowsFor demo k).length ≤ (rowsFor (mergeCycle (some demo) comps) k).length := by
  exact ⟨rfl, fun h hall => rowsFor_mergeCycle_absent comps demo k v h hall,
    length_rowsFor_mergeCycle comps demo k⟩

/-- Witness for C8: one demographics row (SEQN 1), one present two-column
component without SEQN 1, one missing component. -/
theorem C8_witness :
    rowsFor (mergeCycle (some [(1, [some 3])])
      [some (CompTable.mk 2 [(2, [some 7, some 8])]), none]) 1 =
      [(1, [some 3, none, none])] := by
  have h := (C8_per_cycle_merger [(1, [some 3])]
    [some (CompTable.mk 2 [(2, [some 7, some 8])]), none] 1 [some 3]).2.1
    (by decide) (by decide)
  exact h.trans (by decide)

/-- C9: the two pipeline implementations disagree on concrete inputs:
(a) an empty-loading prescription file gives a definite 0 in the cohort-builder
but a missing value in the processing script, whose filter then drops the
participant; (b) the drug name "lipitor 20mg" is a statin for the processing
script's name list but not the cohort-builder's; (c) with TG 450 and a direct
LDL of 80, only the processing script's calculator (which has the fallback
parameter) returns 80, the cohort-builder's returns missing. -/
theorem C9_pipeline_divergence :
    (bc_statin_use (some []) 7 = 0 ∧ pr_statin_user (some []) 7 = none ∧
      pr_statin_filter_keep (pr_statin_user (some []) 7) = false) ∧
    (bc_statin_use (some [⟨3, "lipitor 20mg", []⟩]) 3 = 0 ∧
      pr_statin_user (some [⟨3, "lipitor 20mg", []⟩]) 3 = some 1) ∧
    (calculate_ldl (some 200) (some 50) (some 450) (some (some 80)) = some 80 ∧
      compute_ldl_friedewald (some 200) (some 50) (some 450) = none) := by
  refine ⟨⟨by decide, by decide, by decide⟩, ⟨by decide, by decide⟩,
    ⟨by norm_num [calculate_ldl], by norm_num [compute_ldl_friedewald]⟩⟩

/-- C10: the cohort-builder's CVD-history derivation always returns a definite
0 or 1; when every source is absent as a column or missing for the record the
result is the definite 0; and an absent column behaves exactly like the
explicit negative answer 2, in every one of the five positions. -/
theorem C10_cvd_history (a b c d e : Option (Option ℚ)) :
    (bc_define_cvd_history a b c d e = 0 ∨ bc_define_cvd_history a b c d e = 1) ∧
    (noSignal a → noSignal b → noSignal c → noSignal d → noSignal e →
      bc_define_cvd_history a b c d e = 0) ∧
    bc_define_cvd_history none b c d e = bc_define_cvd_history (some (some 2)) b c d e ∧
    bc_define_cvd_history a none c d e = bc_define_cvd_history a (some (some 2)) c d e ∧
    bc_define_cvd_history a b none d e = bc_define_cvd_history a b (some (some 2)) d e ∧
    bc_define_cvd_history a b c none e = bc_define_cvd_history a b c (some (some 2)) e ∧
    bc_define_cvd_history a b c d none = bc_define_cvd_history a b c d (some (some 2)) := by
  refine ⟨?_, ?_, rfl, rfl, rfl, rfl, rfl⟩
  · unfold bc_define_cvd_history
    split
    · exact Or.inr rfl
    · exact Or.inl rfl
  · rintro (rfl | rfl) (rfl | rfl) (rfl | rfl) (rfl | rfl) (rfl | rfl) <;> rfl

/-- Witness for C10: the all-sources-absent record is classified as a definite
"no CVD history" (0). -/
theorem C10_witness :
    bc_define_cvd_history none none none none none = 0 :=
  (C10_cvd_history none none none none none).2.1
    (Or.inl rfl) (Or.inl rfl) (Or.inl rfl) (Or.inl rfl) (Or.inl rfl)

end Nhanes
